import Mathlib

/-!
Verification of the authentication / authorization core of the school
management backend (`backend/server.py`, data model in `backend/models.py`).

Modelling conventions:
* A MongoDB document is an association list `Doc := List (String × DValue)`
  with string, bool and null values (the value types the auth core touches);
  `datetime` fields are represented by their ISO strings, which is how the
  server stores them.  The `users` collection is a `List Doc` called `Store`.
* The helpers of the absent `auth.py` module (`verify_password`,
  `get_password_hash`, `create_access_token`, `decode_access_token`) are
  abstract function parameters of the handlers: no claim depends on their
  internals.
* Nondeterministic inputs of the source (generated uuids, `datetime.now`)
  are explicit string parameters.
* Pydantic response-model validation (`User(**doc)`) is approximated by the
  boolean `wellFormedUserDoc` check on the projected document: a document
  failing it would raise a `ValidationError` (an HTTP 500), modelled as
  `ApiError.serverError`.  Email-format and timestamp-format validation is
  not modelled (the fields are only required to be strings).
-/

set_option autoImplicit false

namespace SchoolApp

/-- A document field value: the auth core only stores strings, booleans and
nulls in the fields it reads. -/
inductive DValue where
  | str : String → DValue
  | bool : Bool → DValue
  | null : DValue
deriving DecidableEq, Repr

/-- Python truthiness of a field value, used by `user_doc.get("is_active", True)`. -/
def DValue.truthy : DValue → Bool
  | .str s => !(s == "")
  | .bool b => b
  | .null => false

/-- A MongoDB document, as an association list of fields. -/
abbrev Doc := List (String × DValue)

/-- The `users` collection. -/
abbrev Store := List Doc

namespace Doc

/-- Look a field up in a document (first occurrence). -/
def get (d : Doc) (k : String) : Option DValue :=
  (d.find? (fun p => p.1 == k)).map Prod.snd

/-- Look a string field up in a document. -/
def getStr (d : Doc) (k : String) : Option String :=
  match d.get k with
  | some (.str s) => some s
  | _ => none

/-- Does the document have field `k`? -/
def hasKey (d : Doc) (k : String) : Bool :=
  d.any (fun p => p.1 == k)

/-- MongoDB projection `{k: 0, ...}`: drop the listed fields. -/
def excluding (d : Doc) (ks : List String) : Doc :=
  d.filter (fun p => !(ks.contains p.1))

/-- `$set` of a single field: replace it in place, or append it. -/
def setField (d : Doc) (k : String) (v : DValue) : Doc :=
  if d.hasKey k then d.map (fun p => if p.1 == k then (p.1, v) else p)
  else d ++ [(k, v)]

/-- MongoDB `$set` with an update document: set every field of `u`. -/
def setFields (d : Doc) (u : Doc) : Doc :=
  u.foldl (fun acc p => acc.setField p.1 p.2) d

/-- Python `del d[k]` on an update payload. -/
def removeKey (d : Doc) (k : String) : Doc :=
  d.filter (fun p => !(p.1 == k))

end Doc

/-- HTTP-level error outcomes raised by the handlers (`HTTPException`), plus
the server-error outcome of an uncaught exception. -/
inductive ApiError where
  | unauthorized : String → ApiError
  | forbidden : String → ApiError
  | badRequest : String → ApiError
  | notFound : String → ApiError
  | serverError : ApiError
deriving DecidableEq, Repr

/-- The HTTP status code of each error. -/
def ApiError.status : ApiError → Nat
  | .unauthorized _ => 401
  | .forbidden _ => 403
  | .badRequest _ => 400
  | .notFound _ => 404
  | .serverError => 500

/-- `models.UserRole`: the closed role enumeration. -/
inductive UserRole where
  | admin
  | teacher
  | student
  | parent
  | accountant
  | librarian
  | receptionist
deriving DecidableEq, Repr

/-- The string value of each role (the `str`-enum values of `models.UserRole`). -/
def UserRole.val : UserRole → String
  | .admin => "admin"
  | .teacher => "teacher"
  | .student => "student"
  | .parent => "parent"
  | .accountant => "accountant"
  | .librarian => "librarian"
  | .receptionist => "receptionist"

/-- `models.User`: the public (pydantic) identity record, with datetimes as
ISO strings. -/
structure User where
  username : String
  email : String
  name : String
  role : UserRole
  phone : Option String
  address : Option String
  photo : Option String
  is_active : Bool
  id : String
  created_at : String
  updated_at : String
deriving DecidableEq, Repr

/-- `models.UserCreate`: registration input. -/
structure UserCreate where
  username : String
  email : String
  name : String
  role : UserRole
  phone : Option String
  address : Option String
  photo : Option String
  is_active : Bool
  password : String
deriving DecidableEq, Repr

/-- `server.require_role`'s inner `role_checker`, applied to the already
resolved current user: 403 when the user's role is not in `allowed_roles`,
otherwise pass the user through. -/
def require_role (allowed_roles : List UserRole) (current_user : User) :
    Except ApiError User :=
  if current_user.role ∉ allowed_roles then
    .error (.forbidden "Not enough permissions")
  else
    .ok current_user

/-- The role strings pydantic accepts for `models.UserRole`. -/
def roleStrings : List String :=
  ["admin", "teacher", "student", "parent", "accountant", "librarian",
    "receptionist"]

/-- Approximation of pydantic validation of `models.User(**doc)`: the
required fields are present as strings, the role string is a member of the
enumeration, and `is_active` (defaulted to true) is boolean when present.
A projected user document failing this check makes the handler raise a
`ValidationError` (HTTP 500). -/
def wellFormedUserDoc (d : Doc) : Bool :=
  (d.getStr "id").isSome && (d.getStr "username").isSome
    && (d.getStr "email").isSome && (d.getStr "name").isSome
    && (match d.getStr "role" with
        | some r => roleStrings.contains r
        | none => false)
    && (match d.get "is_active" with
        | none => true
        | some (.bool _) => true
        | some _ => false)
    && (d.getStr "created_at").isSome && (d.getStr "updated_at").isSome

/-- The MongoDB filter `{"username": u}` on a user document. -/
def byUsername (u : String) (d : Doc) : Bool :=
  d.getStr "username" == some u

/-- The MongoDB filter `{"id": uid}` on a user document. -/
def byId (uid : String) (d : Doc) : Bool :=
  d.getStr "id" == some uid

/-- The decoded JWT payload, as read by `get_current_user`: a claim set whose
`"sub"` entry may be absent. -/
structure Payload where
  sub : Option String
deriving DecidableEq, Repr

/-- `server.get_current_user`: resolve a bearer token to an identity.
`decode` abstracts `auth.decode_access_token`.  Decoding failure and a
missing `sub` claim are both 401 `"Invalid authentication credentials"`; a
subject absent from the store is 401 `"User not found"`; otherwise the user
document is returned under the projection `{"_id": 0, "password_hash": 0}`. -/
def get_current_user (decode : String → Option Payload) (users : Store)
    (token : String) : Except ApiError Doc :=
  match decode token with
  | none => .error (.unauthorized "Invalid authentication credentials")
  | some payload =>
    match payload.sub with
    | none => .error (.unauthorized "Invalid authentication credentials")
    | some username =>
      match (users.find? (byUsername username)).map
          (fun d => d.excluding ["_id", "password_hash"]) with
      | none => .error (.unauthorized "User not found")
      | some user =>
        if wellFormedUserDoc user then .ok user else .error .serverError

/-- `models.Token`: the login response body. -/
structure TokenOut where
  access_token : String
  token_type : String
  user : Doc
deriving DecidableEq, Repr

/-- Python truthiness of `user_doc.get("is_active", True)`. -/
def docActive (d : Doc) : Bool :=
  match d.get "is_active" with
  | none => true
  | some v => v.truthy

/-- `server.login`.  `verify` abstracts `auth.verify_password` and
`createToken` abstracts `auth.create_access_token` applied to
`{"sub": username}` (the looked-up document's username equals the request
username by the lookup filter).  A missing or non-string stored hash makes
`verify_password` raise (HTTP 500). -/
def login (verify : String → String → Bool) (createToken : String → String)
    (users : Store) (username password : String) : Except ApiError TokenOut :=
  match users.find? (byUsername username) with
  | none => .error (.unauthorized "Incorrect username or password")
  | some user_doc =>
    match user_doc.getStr "password_hash" with
    | none => .error .serverError
    | some stored_hash =>
      if !(verify password stored_hash) then
        .error (.unauthorized "Incorrect username or password")
      else if !(docActive user_doc) then
        .error (.forbidden "User account is inactive")
      else if wellFormedUserDoc user_doc then
        .ok ⟨createToken username, "bearer",
          user_doc.excluding ["password_hash"]⟩
      else .error .serverError

/-- The null-or-string value of an optional profile field in a dump. -/
def optStrVal : Option String → DValue
  | some s => .str s
  | none => .null

/-- The document `register` inserts: `UserInDB(**user_dict,
password_hash=...)` dumped with ISO timestamps, in pydantic field order. -/
def userInDBDoc (uc : UserCreate) (password_hash : String)
    (id created_at updated_at : String) : Doc :=
  [("username", .str uc.username), ("email", .str uc.email),
    ("name", .str uc.name), ("role", .str uc.role.val),
    ("phone", optStrVal uc.phone), ("address", optStrVal uc.address),
    ("photo", optStrVal uc.photo), ("is_active", .bool uc.is_active),
    ("id", .str id), ("created_at", .str created_at),
    ("updated_at", .str updated_at),
    ("password_hash", .str password_hash)]

/-- The MongoDB filter `{"email": e}` on a user document. -/
def byEmail (e : String) (d : Doc) : Bool :=
  d.getStr "email" == some e

/-- `server.register`.  `hashFn` abstracts `auth.get_password_hash`; `id`,
`created_at`, `updated_at` are the generated uuid and timestamps.  Returns
the users collection after the call together with the handler outcome; on a
duplicate username or email the handler raises before the insert, so the
collection is unchanged. -/
def register (hashFn : String → String) (id created_at updated_at : String)
    (users : Store) (uc : UserCreate) : Store × Except ApiError Doc :=
  if (users.find? (byUsername uc.username)).isSome then
    (users, .error (.badRequest "Username already registered"))
  else if (users.find? (byEmail uc.email)).isSome then
    (users, .error (.badRequest "Email already registered"))
  else
    let doc := userInDBDoc uc (hashFn uc.password) id created_at updated_at
    (users ++ [doc], .ok (doc.excluding ["password_hash"]))

/-- `server.get_users` after its admin gate: the user list under the
projection `{"_id": 0, "password_hash": 0}`, optionally filtered by role,
truncated at 1000 documents. -/
def get_users (users : Store) (roleFilter : Option UserRole) : List Doc :=
  ((users.filter (fun d =>
      match roleFilter with
      | none => true
      | some r => d.getStr "role" == some r.val)).take 1000).map
    (fun d => d.excluding ["_id", "password_hash"])

/-- `server.get_user`: read one user by id under the projection
`{"_id": 0, "password_hash": 0}`, 404 when absent. -/
def get_user (users : Store) (user_id : String) : Except ApiError Doc :=
  match (users.find? (byId user_id)).map
      (fun d => d.excluding ["_id", "password_hash"]) with
  | none => .error (.notFound "User not found")
  | some user =>
    if wellFormedUserDoc user then .ok user else .error .serverError

/-- MongoDB `update_one({"id": uid}, {"$set": upd})` on the users
collection: apply `$set` to the first matching document, returning the new
collection and the matched count. -/
def updateFirstById : Store → String → Doc → Store × Nat
  | [], _, _ => ([], 0)
  | d :: rest, uid, upd =>
    if byId uid d then ((d.setFields upd) :: rest, 1)
    else
      let r := updateFirstById rest uid upd
      (d :: r.1, r.2)

/-- `server.update_user`.  `now` is the `datetime.now` ISO string.  Returns
the users collection after the call together with the handler outcome.
Ownership-or-admin gate first; then `"password"` is deleted from the
payload, `"updated_at"` is set, and the remaining payload is `$set`
verbatim; 404 when no document matched. -/
def update_user (now : String) (users : Store) (current_user : User)
    (user_id : String) (updates : Doc) : Store × Except ApiError Doc :=
  if current_user.id ≠ user_id ∧ current_user.role ≠ UserRole.admin then
    (users, .error (.forbidden "Not enough permissions"))
  else
    let updates' := (updates.removeKey "password").setField "updated_at"
      (.str now)
    let r := updateFirstById users user_id updates'
    if r.2 = 0 then (r.1, .error (.notFound "User not found"))
    else
      match (r.1.find? (byId user_id)).map
          (fun d => d.excluding ["_id", "password_hash"]) with
      | none => (r.1, .error .serverError)
      | some user =>
        if wellFormedUserDoc user then (r.1, .ok user)
        else (r.1, .error .serverError)

/-- The default `models.Settings` object built by `get_settings` when no
settings document exists: `Settings(school_name="School Management
System")` with the model's field defaults, dumped as a document. -/
def defaultSettingsDoc (id updated_at : String) : Doc :=
  [("school_name", .str "School Management System"),
    ("school_code", .null), ("address", .null), ("phone", .null),
    ("email", .null), ("website", .null), ("logo", .null),
    ("currency", .str "USD"), ("currency_symbol", .str "$"),
    ("timezone", .str "UTC"), ("language", .str "en"),
    ("date_format", .str "YYYY-MM-DD"), ("time_format", .str "HH:mm"),
    ("id", .str id), ("updated_at", .str updated_at)]

/-- `server.get_settings`: no authentication dependency; `find_one({})` on
the settings collection, returning a default `Settings` object when the
collection is empty.  `Settings(**settings)` requires `school_name`
(approximating pydantic validation, as for users). -/
def get_settings (id updated_at : String) (settingsCol : List Doc) :
    Except ApiError Doc :=
  match settingsCol.head? with
  | none => .ok (defaultSettingsDoc id updated_at)
  | some s =>
    if (s.getStr "school_name").isSome then .ok (s.excluding ["_id"])
    else .error .serverError

/-- A concrete teacher identity, used in witnesses. -/
def teacherUser : User :=
  ⟨"alice", "a@x.com", "Alice", .teacher, none, none, none, true,
    "id-alice", "t0", "t0"⟩

/-- A concrete admin identity, used in witnesses. -/
def adminUser : User :=
  ⟨"root", "r@x.com", "Root", .admin, none, none, none, true,
    "id-root", "t0", "t0"⟩

/-- A concrete registration input, used in witnesses. -/
def aliceCreate : UserCreate :=
  ⟨"alice", "a@x.com", "Alice", .teacher, none, none, none, true,
    "secret123"⟩

/-- A concrete stand-in for `auth.get_password_hash`, used in witnesses. -/
def demoHash (s : String) : String :=
  String.append "h#" s

/-- A concrete stand-in for `auth.verify_password`, used in witnesses. -/
def demoVerify (p stored : String) : Bool :=
  stored == String.append "h#" p

/-- The stored document of the concrete teacher, used in witnesses. -/
def aliceDoc : Doc :=
  userInDBDoc aliceCreate (demoHash "secret123") "id-alice" "t0" "t0"

/-- The stored document of a concrete deactivated user, used in witnesses. -/
def bobDoc : Doc :=
  userInDBDoc
    ⟨"bob", "b@x.com", "Bob", .student, none, none, none, false, "pw"⟩
    (demoHash "pw") "id-bob" "t0" "t0"

/-- The in-place replacement of field `k` keeps every entry's name. -/
theorem fst_setEntry (p : String × DValue) (k : String) (v : DValue) :
    (if p.1 == k then (p.1, v) else p).1 = p.1 := by
  split <;> rfl

/-- Replacing the value of field `k` in place leaves every other field
unchanged. -/
theorem Doc.get_map_set (d : Doc) (k k' : String) (v : DValue) (h : k' ≠ k) :
    Doc.get (d.map (fun p => if p.1 == k then (p.1, v) else p)) k'
      = d.get k' := by
  unfold Doc.get
  rw [List.find?_map]
  have hcomp : ((fun q : String × DValue => q.1 == k')
        ∘ (fun p : String × DValue => if p.1 == k then (p.1, v) else p))
      = fun q : String × DValue => q.1 == k' := by
    funext q
    show ((if q.1 == k then (q.1, v) else q).1 == k') = (q.1 == k')
    rw [fst_setEntry]
  rw [hcomp]
  cases hf : d.find? (fun q => q.1 == k') with
  | none => rfl
  | some q =>
    have hq := List.find?_some hf
    have hqk : (q.1 == k) = false := by
      rw [beq_eq_false_iff_ne]
      intro he
      exact h ((beq_iff_eq.mp hq).symm.trans he)
    simp [hqk, beq_eq_false_iff_ne.mp hqk]

/-- Appending a field named `k` leaves the lookup of any other field
unchanged. -/
theorem Doc.get_append_single (d : Doc) (k k' : String) (v : DValue)
    (h : k' ≠ k) : Doc.get (d ++ [(k, v)]) k' = d.get k' := by
  unfold Doc.get
  rw [List.find?_append]
  cases hf : d.find? (fun p => p.1 == k') with
  | some p => simp
  | none =>
    have hk : ((k, v).1 == k') = false := by
      simp only [beq_eq_false_iff_ne]
      exact fun hkk => h hkk.symm
    simp [List.find?_cons, hk]

/-- `$set` of field `k` leaves the lookup of any other field unchanged. -/
theorem Doc.get_setField_ne (d : Doc) (k k' : String) (v : DValue)
    (h : k' ≠ k) : (d.setField k v).get k' = d.get k' := by
  unfold Doc.setField
  split
  · exact Doc.get_map_set d k k' v h
  · exact Doc.get_append_single d k k' v h

/-- A `$set` whose update document lacks field `k` leaves the lookup of `k`
unchanged. -/
theorem Doc.get_setFields_of_not_hasKey (u : Doc) (k : String) :
    ∀ d : Doc, u.hasKey k = false → (d.setFields u).get k = d.get k := by
  induction u with
  | nil => intro d _; rfl
  | cons p t ih =>
    intro d h
    unfold Doc.hasKey at h
    rw [List.any_cons] at h
    rcases Bool.or_eq_false_iff.mp h with ⟨h1, h2⟩
    have hne : k ≠ p.1 := fun hk => by simp [hk] at h1
    have hstep : Doc.setFields d (p :: t)
        = Doc.setFields (d.setField p.1 p.2) t := by
      unfold Doc.setFields
      rw [List.foldl_cons]
    rw [hstep, ih (d.setField p.1 p.2) h2, Doc.get_setField_ne d p.1 k p.2 hne]

/-- `$set` of field `k` introduces no field other than `k`. -/
theorem Doc.hasKey_setField_of (d : Doc) (k k' : String) (v : DValue)
    (h : d.hasKey k' = false) (hne : k' ≠ k) :
    (d.setField k v).hasKey k' = false := by
  unfold Doc.setField
  split
  · unfold Doc.hasKey at *
    rw [List.any_map]
    have hfun : ((fun p : String × DValue => p.1 == k')
          ∘ (fun p : String × DValue => if p.1 == k then (p.1, v) else p))
        = fun p : String × DValue => p.1 == k' := by
      funext p
      show ((if p.1 == k then (p.1, v) else p).1 == k') = (p.1 == k')
      rw [fst_setEntry]
    rw [hfun]
    exact h
  · unfold Doc.hasKey at *
    rw [List.any_append]
    have hk : ((k, v).1 == k') = false := by
      simp only [beq_eq_false_iff_ne]
      exact fun hkk => hne hkk.symm
    simp [h, hk]

/-- Deleting a field introduces no field. -/
theorem Doc.hasKey_removeKey_of (d : Doc) (k k' : String)
    (h : d.hasKey k' = false) : (d.removeKey k).hasKey k' = false := by
  unfold Doc.hasKey Doc.removeKey at *
  rw [List.any_eq_false] at *
  intro x hx
  exact h x (List.mem_of_mem_filter hx)

/-- `update_one` with an update document lacking field `k` preserves the
value of `k` in every document of the collection. -/
theorem map_get_updateFirstById (uid : String) (upd : Doc) (k : String)
    (h : upd.hasKey k = false) (users : Store) :
    ((updateFirstById users uid upd).1).map (fun d => d.get k)
      = users.map (fun d => d.get k) := by
  induction users with
  | nil => rfl
  | cons d rest ih =>
    unfold updateFirstById
    by_cases hd : byId uid d = true
    · simp [hd, Doc.get_setFields_of_not_hasKey upd k d h]
    · simp [hd, ih]

/-- A projection dropping a listed field has no entry for it. -/
theorem Doc.hasKey_excluding (d : Doc) (ks : List String) (k : String)
    (hk : k ∈ ks) : (d.excluding ks).hasKey k = false := by
  unfold Doc.hasKey Doc.excluding
  rw [List.any_eq_false]
  intro x hx hxk
  rw [List.mem_filter] at hx
  have h2 : x.1 = k := by simpa using hxk
  have h1 := hx.2
  rw [h2] at h1
  simp at h1
  exact h1 hk

/-- Claim C3: the role authorization policy denies with 403 exactly when the
identity's role is not a member of the allowed set; in particular the check
against `[admin]` denies a `teacher` identity and allows an `admin` one. -/
theorem require_role_policy :
    (∀ (allowed : List UserRole) (u : User),
        require_role allowed u = .error (.forbidden "Not enough permissions")
          ↔ u.role ∉ allowed)
    ∧ (∀ (allowed : List UserRole) (u : User),
        require_role allowed u = .ok u ↔ u.role ∈ allowed)
    ∧ (∀ u : User, u.role = .teacher →
        require_role [.admin] u = .error (.forbidden "Not enough permissions"))
    ∧ (∀ u : User, u.role = .admin → require_role [.admin] u = .ok u)
    ∧ (ApiError.forbidden "Not enough permissions").status = 403 := by
  refine ⟨?_, ?_, ?_, ?_, rfl⟩
  · intro allowed u
    unfold require_role
    by_cases h : u.role ∈ allowed <;> simp [h]
  · intro allowed u
    unfold require_role
    by_cases h : u.role ∈ allowed <;> simp [h]
  · intro u h
    unfold require_role
    simp [h]
  · intro u h
    unfold require_role
    simp [h]

/-- Witness for C3: the admin-only check denies the teacher and allows the
admin on concrete identities. -/
theorem require_role_policy_witness :
    require_role [.admin] teacherUser
        = .error (.forbidden "Not enough permissions")
      ∧ require_role [.admin] adminUser = .ok adminUser :=
  ⟨require_role_policy.2.2.1 teacherUser rfl,
    require_role_policy.2.2.2.1 adminUser rfl⟩

/-- Claim C1: login follows the order credential lookup, secret
verification, active check, token issuance.  Unknown username and wrong
password are rejected with the same 401 message; an inactive matched
account is 403; otherwise a bearer token is issued together with the
identity (without the stored hash). -/
theorem login_state_machine (verify : String → String → Bool)
    (ct : String → String) (users : Store) (u p : String) :
    (users.find? (byUsername u) = none →
      login verify ct users u p
        = .error (.unauthorized "Incorrect username or password"))
    ∧ (∀ d stored, users.find? (byUsername u) = some d →
        d.getStr "password_hash" = some stored → verify p stored = false →
        login verify ct users u p
          = .error (.unauthorized "Incorrect username or password"))
    ∧ (∀ d stored, users.find? (byUsername u) = some d →
        d.getStr "password_hash" = some stored → verify p stored = true →
        docActive d = false →
        login verify ct users u p
          = .error (.forbidden "User account is inactive"))
    ∧ (∀ d stored, users.find? (byUsername u) = some d →
        d.getStr "password_hash" = some stored → verify p stored = true →
        docActive d = true → wellFormedUserDoc d = true →
        login verify ct users u p
          = .ok ⟨ct u, "bearer", d.excluding ["password_hash"]⟩)
    ∧ (ApiError.unauthorized "Incorrect username or password").status = 401
    ∧ (ApiError.forbidden "User account is inactive").status = 403 := by
  refine ⟨?_, ?_, ?_, ?_, rfl, rfl⟩
  · intro hf
    simp [login, hf]
  · intro d stored hf hh hv
    simp [login, hf, hh, hv]
  · intro d stored hf hh hv ha
    simp [login, hf, hh, hv, ha]
  · intro d stored hf hh hv ha hw
    simp [login, hf, hh, hv, ha, hw]

/-- Witness for C1: a successful concrete login and a concrete
wrong-password rejection. -/
theorem login_state_machine_witness :
    login demoVerify (fun s => s) [aliceDoc] "alice" "secret123"
        = .ok ⟨"alice", "bearer", aliceDoc.excluding ["password_hash"]⟩
      ∧ login demoVerify (fun s => s) [aliceDoc] "alice" "wrong"
        = .error (.unauthorized "Incorrect username or password") :=
  ⟨(login_state_machine demoVerify (fun s => s) [aliceDoc] "alice"
        "secret123").2.2.2.1 aliceDoc (demoHash "secret123") rfl rfl rfl rfl
      rfl,
    (login_state_machine demoVerify (fun s => s) [aliceDoc] "alice"
        "wrong").2.1 aliceDoc (demoHash "secret123") rfl rfl rfl⟩

/-- Claim C2: identity resolution returns 401 on token decode failure, 401
when the claims lack a subject, a 401 `"User not found"` when the subject
is not stored, and otherwise the identity freshly loaded from the store
with the secret-hash field excluded from the projection. -/
theorem get_current_user_resolution (decode : String → Option Payload)
    (users : Store) (token : String) :
    (decode token = none →
      get_current_user decode users token
        = .error (.unauthorized "Invalid authentication credentials"))
    ∧ (∀ pl, decode token = some pl → pl.sub = none →
        get_current_user decode users token
          = .error (.unauthorized "Invalid authentication credentials"))
    ∧ (∀ pl un, decode token = some pl → pl.sub = some un →
        users.find? (byUsername un) = none →
        get_current_user decode users token
          = .error (.unauthorized "User not found"))
    ∧ (∀ pl un d, decode token = some pl → pl.sub = some un →
        users.find? (byUsername un) = some d →
        wellFormedUserDoc (d.excluding ["_id", "password_hash"]) = true →
        get_current_user decode users token
          = .ok (d.excluding ["_id", "password_hash"]))
    ∧ (ApiError.unauthorized "Invalid authentication credentials").status
        = 401
    ∧ (ApiError.unauthorized "User not found").status = 401 := by
  refine ⟨?_, ?_, ?_, ?_, rfl, rfl⟩
  · intro hd
    simp [get_current_user, hd]
  · intro pl hd hs
    simp [get_current_user, hd, hs]
  · intro pl un hd hs hf
    simp [get_current_user, hd, hs, hf]
  · intro pl un d hd hs hf hw
    simp [get_current_user, hd, hs, hf, hw]

/-- A concrete token decoder, used in witnesses: `"tok"` carries subject
`"alice"`, `"tok-bob"` carries subject `"bob"`, everything else is invalid. -/
def demoDecode (t : String) : Option Payload :=
  if t == "tok" then some ⟨some "alice"⟩
  else if t == "tok-bob" then some ⟨some "bob"⟩
  else none

/-- Witness for C2: a concrete valid token resolves to the stored identity
without the hash, and a concrete invalid token is rejected with 401. -/
theorem get_current_user_resolution_witness :
    get_current_user demoDecode [aliceDoc] "tok"
        = .ok (aliceDoc.excluding ["_id", "password_hash"])
      ∧ get_current_user demoDecode [aliceDoc] "garbage"
        = .error (.unauthorized "Invalid authentication credentials") :=
  ⟨(get_current_user_resolution demoDecode [aliceDoc] "tok").2.2.2.1
      ⟨some "alice"⟩ "alice" aliceDoc rfl rfl rfl rfl,
    (get_current_user_resolution demoDecode [aliceDoc] "garbage").1 rfl⟩

/-- Claim C5: the active flag is not re-checked at token resolution: a
valid token whose stored subject has `is_active = false` still resolves to
that identity. -/
theorem inactive_token_still_authenticates (decode : String → Option Payload)
    (users : Store) (token un : String) (d : Doc) :
    decode token = some ⟨some un⟩ →
    users.find? (byUsername un) = some d →
    d.get "is_active" = some (.bool false) →
    wellFormedUserDoc (d.excluding ["_id", "password_hash"]) = true →
    get_current_user decode users token
      = .ok (d.excluding ["_id", "password_hash"]) := by
  intro hd hf _ hw
  simp [get_current_user, hd, hf, hw]

/-- Witness for C5: the deactivated concrete user's valid token still
resolves to their identity. -/
theorem inactive_token_still_authenticates_witness :
    get_current_user demoDecode [bobDoc] "tok-bob"
      = .ok (bobDoc.excluding ["_id", "password_hash"]) :=
  inactive_token_still_authenticates demoDecode [bobDoc] "tok-bob" "bob"
    bobDoc rfl rfl rfl rfl

/-- Claim C4: no successful registration, login, self-info (the resolved
current user), user-list, or user-read response contains the stored
`password_hash` field. -/
theorem responses_exclude_password_hash (hashFn : String → String)
    (verify : String → String → Bool) (ct : String → String)
    (decode : String → Option Payload) (id ca ua : String) (users : Store)
    (uc : UserCreate) (u p token uid : String) (rf : Option UserRole) :
    (∀ resp, (register hashFn id ca ua users uc).2 = .ok resp →
      resp.hasKey "password_hash" = false)
    ∧ (∀ t, login verify ct users u p = .ok t →
        t.user.hasKey "password_hash" = false)
    ∧ (∀ d, get_current_user decode users token = .ok d →
        d.hasKey "password_hash" = false)
    ∧ (∀ d, d ∈ get_users users rf → d.hasKey "password_hash" = false)
    ∧ (∀ d, get_user users uid = .ok d →
        d.hasKey "password_hash" = false) := by
  refine ⟨?_, ?_, ?_, ?_, ?_⟩
  · intro resp hr
    unfold register at hr
    split at hr
    · exact Except.noConfusion hr
    · split at hr
      · exact Except.noConfusion hr
      · simp only [Except.ok.injEq] at hr
        rw [← hr]
        exact Doc.hasKey_excluding _ _ _ (by simp)
  · intro t ht
    unfold login at ht
    split at ht
    · exact Except.noConfusion ht
    · split at ht
      · exact Except.noConfusion ht
      · split at ht
        · exact Except.noConfusion ht
        · split at ht
          · exact Except.noConfusion ht
          · split at ht
            · simp only [Except.ok.injEq] at ht
              rw [← ht]
              exact Doc.hasKey_excluding _ _ _ (by simp)
            · exact Except.noConfusion ht
  · intro d hd
    unfold get_current_user at hd
    split at hd
    · exact Except.noConfusion hd
    · split at hd
      · exact Except.noConfusion hd
      · split at hd
        · exact Except.noConfusion hd
        · rename_i user heq
          split at hd
          · simp only [Except.ok.injEq] at hd
            rw [← hd]
            rcases Option.map_eq_some'.mp heq with ⟨d0, _, hproj⟩
            rw [← hproj]
            exact Doc.hasKey_excluding _ _ _ (by simp)
          · exact Except.noConfusion hd
  · intro d hd
    unfold get_users at hd
    rcases List.mem_map.mp hd with ⟨d0, _, hproj⟩
    rw [← hproj]
    exact Doc.hasKey_excluding _ _ _ (by simp)
  · intro d hd
    unfold get_user at hd
    split at hd
    · exact Except.noConfusion hd
    · rename_i user heq
      split at hd
      · simp only [Except.ok.injEq] at hd
        rw [← hd]
        rcases Option.map_eq_some'.mp heq with ⟨d0, _, hproj⟩
        rw [← hproj]
        exact Doc.hasKey_excluding _ _ _ (by simp)
      · exact Except.noConfusion hd

/-- Witness for C4: a concrete successful registration response and a
concrete successful token resolution carry no `password_hash` field. -/
theorem responses_exclude_password_hash_witness :
    (∀ resp,
      (register demoHash "id-alice" "t0" "t0" [] aliceCreate).2 = .ok resp →
      resp.hasKey "password_hash" = false)
    ∧ (∀ d, get_current_user demoDecode [aliceDoc] "tok" = .ok d →
        d.hasKey "password_hash" = false) :=
  ⟨(responses_exclude_password_hash demoHash demoVerify (fun s => s)
      demoDecode "id-alice" "t0" "t0" [] aliceCreate "alice" "secret123"
      "tok" "id-alice" none).1,
    (responses_exclude_password_hash demoHash demoVerify (fun s => s)
      demoDecode "id-alice" "t0" "t0" [aliceDoc] aliceCreate "alice"
      "secret123" "tok" "id-alice" none).2.2.1⟩

/-- Claim C8: the user-update is rejected with 403 exactly when the
requester neither owns the target id nor passes the admin role check. -/
theorem update_user_permission (now : String) (users : Store) (cu : User)
    (uid : String) (updates : Doc) :
    (update_user now users cu uid updates).2
        = .error (.forbidden "Not enough permissions")
      ↔ ¬(cu.id = uid ∨ require_role [UserRole.admin] cu = .ok cu) := by
  by_cases hcond : cu.id ≠ uid ∧ cu.role ≠ UserRole.admin
  · have hl : (update_user now users cu uid updates).2
        = .error (.forbidden "Not enough permissions") := by
      simp [update_user, hcond]
    have hr : ¬(cu.id = uid ∨ require_role [UserRole.admin] cu = .ok cu) := by
      rintro (h1 | h2)
      · exact hcond.1 h1
      · have hm : cu.role ∉ [UserRole.admin] := by simpa using hcond.2
        simp [require_role, hm] at h2
        exact hcond.2 h2
    exact iff_of_true hl hr
  · have hperm : cu.id = uid ∨ require_role [UserRole.admin] cu = .ok cu := by
      rcases not_and_or.mp hcond with h1 | h2
      · exact Or.inl (not_not.mp h1)
      · have hr : cu.role = UserRole.admin := not_not.mp h2
        exact Or.inr (by simp [require_role, hr])
    have hl : (update_user now users cu uid updates).2
        ≠ .error (.forbidden "Not enough permissions") := by
      simp only [update_user]
      rw [if_neg hcond]
      split
      · simp
      · split
        · simp
        · split <;> simp
    exact iff_of_false hl (not_not_intro hperm)

/-- Claim C9: registration is rejected with a 400 naming the duplicate
field when the username or the email is already stored, leaving the
collection unchanged; otherwise the new record is inserted and the
response is its projection without the secret hash. -/
theorem register_unique_fields (hashFn : String → String)
    (id ca ua : String) (users : Store) (uc : UserCreate) :
    ((users.find? (byUsername uc.username)).isSome = true →
      register hashFn id ca ua users uc
        = (users, .error (.badRequest "Username already registered")))
    ∧ (users.find? (byUsername uc.username) = none →
        (users.find? (byEmail uc.email)).isSome = true →
        register hashFn id ca ua users uc
          = (users, .error (.badRequest "Email already registered")))
    ∧ (users.find? (byUsername uc.username) = none →
        users.find? (byEmail uc.email) = none →
        register hashFn id ca ua users uc
            = (users ++ [userInDBDoc uc (hashFn uc.password) id ca ua],
              .ok ((userInDBDoc uc (hashFn uc.password) id ca
                ua).excluding ["password_hash"]))
          ∧ ((userInDBDoc uc (hashFn uc.password) id ca ua).excluding
              ["password_hash"]).hasKey "password_hash" = false)
    ∧ (ApiError.badRequest "Username already registered").status = 400
    ∧ (ApiError.badRequest "Email already registered").status = 400 := by
  refine ⟨?_, ?_, ?_, rfl, rfl⟩
  · intro h
    simp [register, h]
  · intro h1 h2
    simp [register, h1, h2]
  · intro h1 h2
    exact ⟨by simp [register, h1, h2],
      Doc.hasKey_excluding _ _ _ (by simp)⟩

/-- Witness for C9: a concrete duplicate-username rejection leaving the
store unchanged, and a concrete successful registration. -/
theorem register_unique_fields_witness :
    register demoHash "id2" "t1" "t1" [aliceDoc] aliceCreate
        = ([aliceDoc], .error (.badRequest "Username already registered"))
      ∧ register demoHash "id-alice" "t0" "t0" [] aliceCreate
        = ([userInDBDoc aliceCreate (demoHash "secret123") "id-alice" "t0"
              "t0"],
            .ok ((userInDBDoc aliceCreate (demoHash "secret123") "id-alice"
              "t0" "t0").excluding ["password_hash"])) :=
  ⟨(register_unique_fields demoHash "id2" "t1" "t1" [aliceDoc]
      aliceCreate).1 rfl,
    ((register_unique_fields demoHash "id-alice" "t0" "t0" []
      aliceCreate).2.2.1 rfl rfl).1⟩

/-- Claim C10: the settings read endpoint carries no authentication or role
gate — it never returns a 401 or 403 — and on an empty settings collection
it returns the default `Settings` object whose `school_name` is
`"School Management System"`; on a stored well-formed settings document it
succeeds as well. -/
theorem get_settings_public_default (id ua : String) (col : List Doc) :
    (∀ m, get_settings id ua col ≠ .error (.unauthorized m))
    ∧ (∀ m, get_settings id ua col ≠ .error (.forbidden m))
    ∧ get_settings id ua [] = .ok (defaultSettingsDoc id ua)
    ∧ (defaultSettingsDoc id ua).getStr "school_name"
        = some "School Management System"
    ∧ (∀ s rest, col = s :: rest → (s.getStr "school_name").isSome = true →
        get_settings id ua col = .ok (s.excluding ["_id"])) := by
  refine ⟨?_, ?_, rfl, rfl, ?_⟩
  · intro m
    unfold get_settings
    split
    · simp
    · split <;> simp
  · intro m
    unfold get_settings
    split
    · simp
    · split <;> simp
  · intro s rest hcol hs
    subst hcol
    simp [get_settings, hs]

/-- Witness for C10: a concrete stored settings document is served
without any authentication input. -/
theorem get_settings_public_default_witness :
    get_settings "s1" "t0" [[("school_name", DValue.str "X")]]
      = .ok (Doc.excluding [("school_name", DValue.str "X")] ["_id"]) :=
  (get_settings_public_default "s1" "t0"
      [[("school_name", DValue.str "X")]]).2.2.2.2
    [("school_name", DValue.str "X")] [] rfl rfl

/-- Counterexample for C6: the generic update endpoint does change the
stored role — an admin-issued update payload `{"role": "admin"}` on the
stored teacher record rewrites its role, contradicting role immutability
as claimed. -/
theorem role_mutable_counterexample :
    ((update_user "t1" [aliceDoc] adminUser "id-alice"
        [("role", DValue.str "admin")]).1).map (fun d => d.getStr "role")
        = [some "admin"]
      ∧ aliceDoc.getStr "role" = some "teacher" := by
  constructor <;> rfl

/-- Amended C6: every update whose payload lacks a `"role"` key preserves
the stored role of every identity; the in-scope operations other than
`update_user` never write the role of an existing record, but `update_user`
accepts an arbitrary payload, so a `"role"` key does change it. -/
theorem role_preserved_without_role_key (now : String) (users : Store)
    (cu : User) (uid : String) (updates : Doc)
    (h : updates.hasKey "role" = false) :
    ((update_user now users cu uid updates).1).map (fun d => d.get "role")
      = users.map (fun d => d.get "role") := by
  have hkey : ((updates.removeKey "password").setField "updated_at"
      (.str now)).hasKey "role" = false :=
    Doc.hasKey_setField_of _ _ _ _ (Doc.hasKey_removeKey_of _ _ _ h)
      (by decide)
  by_cases hcond : cu.id ≠ uid ∧ cu.role ≠ UserRole.admin
  · simp [update_user, hcond]
  · have hmap := map_get_updateFirstById uid _ "role" hkey users
    simp only [update_user]
    rw [if_neg hcond]
    split
    · exact hmap
    · split
      · exact hmap
      · split <;> exact hmap

/-- Witness for amended C6: a concrete name-only update leaves the stored
role untouched. -/
theorem role_preserved_without_role_key_witness :
    ((update_user "t1" [aliceDoc] adminUser "id-alice"
        [("name", DValue.str "Alicia")]).1).map (fun d => d.get "role")
      = [aliceDoc].map (fun d => d.get "role") :=
  role_preserved_without_role_key "t1" [aliceDoc] adminUser "id-alice"
    [("name", DValue.str "Alicia")] rfl

/-- Counterexample for C7: the generic update only deletes the plaintext
`"password"` key from the payload, so a payload carrying a
`"password_hash"` key overwrites the stored secret hash. -/
theorem password_hash_mutable_counterexample :
    ((update_user "t1" [aliceDoc] adminUser "id-alice"
        [("password_hash", DValue.str "evil")]).1).map
          (fun d => d.getStr "password_hash")
        = [some "evil"]
      ∧ aliceDoc.getStr "password_hash" = some "h#secret123" := by
  constructor <;> rfl

/-- Amended C7: the generic update deletes the `"password"` key from the
payload, and the stored secret hash is unchanged whenever the payload does
not itself contain a `"password_hash"` key. -/
theorem password_hash_preserved_without_hash_key (now : String)
    (users : Store) (cu : User) (uid : String) (updates : Doc)
    (h : updates.hasKey "password_hash" = false) :
    ((update_user now users cu uid updates).1).map
        (fun d => d.get "password_hash")
      = users.map (fun d => d.get "password_hash") := by
  have hkey : ((updates.removeKey "password").setField "updated_at"
      (.str now)).hasKey "password_hash" = false :=
    Doc.hasKey_setField_of _ _ _ _ (Doc.hasKey_removeKey_of _ _ _ h)
      (by decide)
  by_cases hcond : cu.id ≠ uid ∧ cu.role ≠ UserRole.admin
  · simp [update_user, hcond]
  · have hmap := map_get_updateFirstById uid _ "password_hash" hkey users
    simp only [update_user]
    rw [if_neg hcond]
    split
    · exact hmap
    · split
      · exact hmap
      · split <;> exact hmap

/-- Witness for amended C7: a concrete phone-only update leaves the stored
secret hash untouched. -/
theorem password_hash_preserved_without_hash_key_witness :
    ((update_user "t1" [aliceDoc] adminUser "id-alice"
        [("phone", DValue.str "123")]).1).map
        (fun d => d.get "password_hash")
      = [aliceDoc].map (fun d => d.get "password_hash") :=
  password_hash_preserved_without_hash_key "t1" [aliceDoc] adminUser
    "id-alice" [("phone", DValue.str "123")] rfl

end SchoolApp
